import Mathlib

/- Shallow embedding of the Anvaya backend (src/index.js): an Express CRUD
API over three Mongo collections (leads, sales agents, comments).  Each
route handler is modelled as a pure function from the request data and a
database state to an HTTP response and a new database state.  Timestamps
are epoch milliseconds as Int.  Freshly generated document ids and the
request time are passed in as parameters. -/

/-- Hex digit test, as used by the 24-hex-character Mongo ObjectId format. -/
def isHexDigit (c : Char) : Bool :=
  c.isDigit || ('a' ≤ c && c ≤ 'f') || ('A' ≤ c && c ≤ 'F')

/-- Models the isMongoId check of express-validator (validator.js):
exactly 24 hexadecimal characters. -/
def isMongoId (s : String) : Bool :=
  s.length == 24 && s.toList.all isHexDigit

/-- Models mongoose.Types.ObjectId.isValid on a string: a 24-hex-character
string, or any 12-character string (taken as 12 raw bytes). -/
def objectIdIsValid (s : String) : Bool :=
  isMongoId s || s.length == 12

/-- A stored Lead document.  The schema file (models/lead.model.js) is not in
src/; the field set is modelled from the spec, section 3: name, optional
salesAgent reference, status, optional priority, optional numeric
timeToClose, optional closedAt date.  status and priority are kept as raw
strings, as in the document store; closedAt is epoch milliseconds. -/
structure Lead where
  id : String
  name : String
  salesAgent : Option String
  status : String
  priority : Option String
  timeToClose : Option Int
  closedAt : Option Int
deriving DecidableEq, Repr

/-- A stored SalesAgent document (fields from spec section 3). -/
structure SalesAgent where
  id : String
  name : String
  email : String
deriving DecidableEq, Repr

/-- A stored Comment document (fields from spec section 3): lead reference,
author reference, text, creation timestamp. -/
structure Comment where
  id : String
  lead : String
  author : String
  commentText : String
  createdAt : Int
deriving DecidableEq, Repr

/-- The database state: the three collections. -/
structure DB where
  leads : List Lead
  agents : List SalesAgent
  comments : List Comment
deriving DecidableEq, Repr

/-- A POST/PUT /leads request body after JSON parsing.  name and status are
the parsed string fields (requests in which they are absent or non-strings
are rejected by validateLead and are not modelled further); timeToClose is
modelled as an already-parsed number, since the isNumeric validator only
constrains its shape and no claim depends on the parse itself. -/
structure LeadBody where
  name : String
  salesAgent : Option String
  status : String
  priority : Option String
  timeToClose : Option Int
  closedAt : Option Int
deriving DecidableEq, Repr

/-- The five legal lead status values (validateLead, index.js line 53). -/
def validStatuses : List String :=
  ["New", "Contacted", "Qualified", "Proposal Sent", "Closed"]

/-- The three legal priority values (validateLead, index.js line 57). -/
def validPriorities : List String := ["High", "Medium", "Low"]

/-- The validateLead middleware chain (index.js lines 42-63): name nonempty
of length at least 2; salesAgent, when present, a Mongo id; status in the
five-value enum; priority, when present, in the three-value enum;
timeToClose, when present, numeric (always true of the parsed number). -/
def validateLead (b : LeadBody) : Bool :=
  decide (2 ≤ b.name.length) &&
  (match b.salesAgent with
   | none => true
   | some a => isMongoId a) &&
  validStatuses.contains b.status &&
  (match b.priority with
   | none => true
   | some p => validPriorities.contains p)

/-- The response payload, one constructor per distinct branch of the
handlers, so that branches with the same status code stay told apart. -/
structure AgentView where
  name : Option String
  email : Option String
deriving DecidableEq, Repr

/-- A comment as returned by GET /leads/:id/comments after populate: the
author reference replaced by the agent's name and email (none when the
referenced agent does not exist). -/
structure CommentView where
  id : String
  commentText : String
  authorName : Option String
  authorEmail : Option String
  createdAt : Int
deriving DecidableEq, Repr

inductive RespBody where
  | validationErrors
  | invalidSalesAgent
  | agentNotFound (id : String)
  | leadCreated (l : Lead)
  | invalidInput
  | leadsFetched (leads : List Lead)
  | invalidLeadId
  | leadNotFound (id : String)
  | leadUpdated (l : Lead)
  | leadDeleted (l : Lead)
  | agentsFetched (agents : List SalesAgent)
  | commentTextRequired
  | commentCreated (c : Comment) (authorName : Option String)
  | commentsFetched (views : List CommentView)
  | lastWeekLeads (leads : List Lead)
  | pipelineCount (total : Nat)
  | serverError
deriving DecidableEq, Repr

/-- An HTTP response: status code plus which payload was sent. -/
structure Resp where
  status : Nat
  body : RespBody
deriving DecidableEq, Repr

/-- The document built by new AnvayaLead(req.body) with a fresh id. -/
def leadOfBody (freshId : String) (b : LeadBody) : Lead :=
  { id := freshId, name := b.name, salesAgent := b.salesAgent,
    status := b.status, priority := b.priority,
    timeToClose := b.timeToClose, closedAt := b.closedAt }

/-- createNewLead (index.js lines 66-74): constructs and saves the lead,
appending it to the leads collection. -/
def createNewLead (freshId : String) (b : LeadBody) (db : DB) : Lead × DB :=
  (leadOfBody freshId b, { db with leads := db.leads ++ [leadOfBody freshId b] })

/-- POST /leads (index.js lines 76-114): run validateLead; on failure 400
with the error array.  Otherwise SAVE the lead first, then, when a
salesAgent is set on the saved document, check its id shape (400) and the
referenced agent's existence (404) — the save is never rolled back.  The
source's final truthiness check on the saved document is always true after
a successful save, so the 201 is emitted directly. -/
def postLeads (freshId : String) (b : LeadBody) (db : DB) : Resp × DB :=
  if validateLead b then
    let p := createNewLead freshId b db
    match p.fst.salesAgent with
    | some a =>
      if objectIdIsValid a then
        match p.snd.agents.find? (fun ag => ag.id == a) with
        | none => ({ status := 404, body := .agentNotFound a }, p.snd)
        | some _ => ({ status := 201, body := .leadCreated p.fst }, p.snd)
      else ({ status := 400, body := .invalidSalesAgent }, p.snd)
    | none => ({ status := 201, body := .leadCreated p.fst }, p.snd)
  else ({ status := 400, body := .validationErrors }, db)

/-- findAllLeads (index.js lines 117-124).  The populate of salesAgent only
reshapes the payload and is not modelled; no claim depends on it. -/
def findAllLeads (db : DB) : List Lead := db.leads

/-- GET /leads (index.js lines 126-142): 200 with the array when nonempty,
else 400. -/
def getLeads (db : DB) : Resp :=
  if 0 < (findAllLeads db).length then
    { status := 200, body := .leadsFetched (findAllLeads db) }
  else { status := 400, body := .invalidInput }

/-- fetchSalesAgents (index.js lines 271-278). -/
def fetchSalesAgents (db : DB) : List SalesAgent := db.agents

/-- GET /agents (index.js lines 280-299): 200 with the array when nonempty.
In the empty branch the source evaluates error.message inside the json
argument, but no binding named error is in scope there: building the
argument object throws a ReferenceError before json is called, the catch
block runs, and the request is answered 500.  The written 404 never
reaches the client. -/
def getAgents (db : DB) : Resp :=
  if 0 < (fetchSalesAgents db).length then
    { status := 200, body := .agentsFetched (fetchSalesAgents db) }
  else { status := 500, body := .serverError }

/-- The effect of findByIdAndUpdate with the request body: a $set of the
fields present in the body; fields absent from the body keep their stored
values.  name and status are always present in a validated body. -/
def applyUpdate (old : Lead) (b : LeadBody) : Lead :=
  { old with
    name := b.name
    status := b.status
    salesAgent := match b.salesAgent with | some a => some a | none => old.salesAgent
    priority := match b.priority with | some p => some p | none => old.priority
    timeToClose := match b.timeToClose with | some t => some t | none => old.timeToClose
    closedAt := match b.closedAt with | some d => some d | none => old.closedAt }

/-- updateLeadById (index.js lines 145-155): find the lead by id, apply the
update, return the updated document (new: true), or none when absent. -/
def updateLeadById (leadId : String) (b : LeadBody) (db : DB) : Option Lead × DB :=
  match db.leads.find? (fun l => l.id == leadId) with
  | none => (none, db)
  | some old =>
    (some (applyUpdate old b),
     { db with leads := db.leads.map (fun l => if l.id == leadId then applyUpdate old b else l) })

/-- PUT /leads/:id (index.js lines 157-188): body validation first (400),
then id format (400), then 404 when no document matches, else 200 with the
updated document. -/
def putLead (leadId : String) (b : LeadBody) (db : DB) : Resp × DB :=
  if validateLead b then
    if objectIdIsValid leadId then
      match updateLeadById leadId b db with
      | (none, db') => ({ status := 404, body := .leadNotFound leadId }, db')
      | (some u, db') => ({ status := 200, body := .leadUpdated u }, db')
    else ({ status := 400, body := .invalidLeadId }, db)
  else ({ status := 400, body := .validationErrors }, db)

/-- Removes the first lead with the given id, as findByIdAndDelete does. -/
def removeFirstById (leadId : String) : List Lead → List Lead
  | [] => []
  | l :: ls => if l.id == leadId then ls else l :: removeFirstById leadId ls

/-- deleteLeadById (index.js lines 191-198): find and remove the lead,
returning the removed document or none. -/
def deleteLeadById (leadId : String) (db : DB) : Option Lead × DB :=
  match db.leads.find? (fun l => l.id == leadId) with
  | none => (none, db)
  | some l => (some l, { db with leads := removeFirstById leadId db.leads })

/-- DELETE /leads/:id (index.js lines 200-225): 400 on a malformed id, 404
when no lead matches, else 200 with the removed document. -/
def deleteLead (leadId : String) (db : DB) : Resp × DB :=
  if objectIdIsValid leadId then
    match deleteLeadById leadId db with
    | (none, db') => ({ status := 404, body := .leadNotFound leadId }, db')
    | (some l, db') => ({ status := 200, body := .leadDeleted l }, db')
  else ({ status := 400, body := .invalidLeadId }, db)

/-- A POST /leads/:id/comments request body: optional commentText (absent or
non-string modelled as none) and optional author reference. -/
structure CommentBody where
  commentText : Option String
  author : Option String
deriving DecidableEq, Repr

/-- The hard-coded default author id (index.js line 307). -/
def defaultAuthorId : String := "6903b32407758bda66dce80a"

/-- createNewComment (index.js lines 303-316): builds the comment with the
body's author or the hard-coded default, the validated text, and the save
timestamp, and appends it to the comments collection. -/
def createNewComment (freshId : String) (createdAt : Int) (leadId : String)
    (b : CommentBody) (db : DB) : Comment × DB :=
  ({ id := freshId, lead := leadId, author := b.author.getD defaultAuthorId,
     commentText := b.commentText.getD "", createdAt := createdAt },
   { db with comments := db.comments ++
      [{ id := freshId, lead := leadId, author := b.author.getD defaultAuthorId,
         commentText := b.commentText.getD "", createdAt := createdAt }] })

/-- Models AnvayaLead.findById on a request-supplied id: mongoose first
casts the string to an ObjectId and throws a CastError when the shape is
wrong (error result); on a well-formed id it returns the matching lead,
when any. -/
def findLeadById (leadId : String) (db : DB) : Except Unit (Option Lead) :=
  if objectIdIsValid leadId then .ok (db.leads.find? (fun l => l.id == leadId))
  else .error ()

/-- POST /leads/:id/comments (index.js lines 318-354): 400 when commentText
is absent, a non-string, or empty (falsy); then the lead lookup runs with
NO id-format guard, so a malformed id makes findById throw and the catch
answers 500; a well-formed id with no matching lead gives 404; otherwise
the comment is saved and 201 carries its projection with the author's name
resolved. -/
def postComment (freshId : String) (createdAt : Int) (leadId : String)
    (b : CommentBody) (db : DB) : Resp × DB :=
  match b.commentText with
  | none => ({ status := 400, body := .commentTextRequired }, db)
  | some ct =>
    if ct.isEmpty then ({ status := 400, body := .commentTextRequired }, db)
    else
      match findLeadById leadId db with
      | .error _ => ({ status := 500, body := .serverError }, db)
      | .ok none => ({ status := 404, body := .leadNotFound leadId }, db)
      | .ok (some _) =>
        ({ status := 201,
           body := .commentCreated (createNewComment freshId createdAt leadId b db).fst
             ((db.agents.find? (fun a => a.id == (createNewComment freshId createdAt leadId b db).fst.author)).map
               (fun a => a.name)) },
         (createNewComment freshId createdAt leadId b db).snd)

/-- Inserts x into a list sorted by key descending, keeping it sorted. -/
def insertByDesc {α : Type} (key : α → Int) (x : α) : List α → List α
  | [] => [x]
  | y :: ys => if key y ≤ key x then x :: y :: ys else y :: insertByDesc key x ys

/-- Insertion sort by key, largest key first: the model of a Mongo
sort with direction -1 on that key. -/
def sortByDesc {α : Type} (key : α → Int) : List α → List α
  | [] => []
  | x :: xs => insertByDesc key x (sortByDesc key xs)

/-- The populate step of the comments list: the author reference becomes
the referenced agent's name and email, or none when the agent is gone. -/
def commentView (db : DB) (c : Comment) : CommentView :=
  match db.agents.find? (fun a => a.id == c.author) with
  | some a =>
    { id := c.id, commentText := c.commentText, authorName := some a.name,
      authorEmail := some a.email, createdAt := c.createdAt }
  | none =>
    { id := c.id, commentText := c.commentText, authorName := none,
      authorEmail := none, createdAt := c.createdAt }

/-- fetchAllComments (index.js lines 357-367): the comments of the lead,
author populated, sorted by createdAt descending (latest first). -/
def fetchAllComments (leadId : String) (db : DB) : List CommentView :=
  sortByDesc (fun v => v.createdAt)
    ((db.comments.filter (fun c => c.lead == leadId)).map (commentView db))

/-- GET /leads/:id/comments (index.js lines 369-396): 400 on a malformed
id, 404 when the lead does not exist, else 200 with the sorted populated
array (possibly empty). -/
def getComments (leadId : String) (db : DB) : Resp :=
  if objectIdIsValid leadId then
    match db.leads.find? (fun l => l.id == leadId) with
    | none => { status := 404, body := .leadNotFound leadId }
    | some _ => { status := 200, body := .commentsFetched (fetchAllComments leadId db) }
  else { status := 400, body := .invalidLeadId }

/-- Milliseconds in a day; the handler's 7-day window is 7 of these. -/
def msPerDay : Int := 86400000

/-- The filter of fetchLastWeekReport: status Closed and closedAt inside
the inclusive window from now minus 7 days to now.  A document without a
closedAt value never matches the range. -/
def inLastWeekWindow (now : Int) (l : Lead) : Bool :=
  l.status == "Closed" &&
  (match l.closedAt with
   | some t => decide (now - 7 * msPerDay ≤ t) && decide (t ≤ now)
   | none => false)

/-- The sort key of the report; every lead in the report has a closedAt. -/
def closedKey (l : Lead) : Int := l.closedAt.getD 0

/-- fetchLastWeekReport (index.js lines 400-416): today and sevenDaysAgo
are taken at request time (modelled as the single instant now, the
calendar arithmetic of setDate modelled as 7 uniform days); the query
keeps the Closed leads inside the inclusive window, newest closed first. -/
def fetchLastWeekReport (now : Int) (db : DB) : List Lead :=
  sortByDesc closedKey (db.leads.filter (inLastWeekWindow now))

/-- GET /report/last-week (index.js lines 418-431): 200 with the report. -/
def getLastWeekReport (now : Int) (db : DB) : Resp :=
  { status := 200, body := .lastWeekLeads (fetchLastWeekReport now db) }

/-- GET /report/pipeline (index.js lines 433-447): 200 with
countDocuments of the leads collection. -/
def getPipelineReport (db : DB) : Resp :=
  { status := 200, body := .pipelineCount db.leads.length }

/-- Inserting into the sorted list is a permutation of consing. -/
theorem perm_insertByDesc {α : Type} (key : α → Int) (x : α) (l : List α) :
    (insertByDesc key x l).Perm (x :: l) := by
  induction l with
  | nil => rfl
  | cons y ys ih =>
    unfold insertByDesc
    by_cases h : key y ≤ key x
    · rw [if_pos h]
    · rw [if_neg h]
      exact (ih.cons y).trans (List.Perm.swap x y ys)

/-- The descending sort is a permutation of its input. -/
theorem perm_sortByDesc {α : Type} (key : α → Int) (l : List α) :
    (sortByDesc key l).Perm l := by
  induction l with
  | nil => rfl
  | cons x xs ih =>
    unfold sortByDesc
    exact (perm_insertByDesc key x (sortByDesc key xs)).trans (ih.cons x)

/-- Membership after insertion. -/
theorem mem_insertByDesc {α : Type} {key : α → Int} {x a : α} {l : List α} :
    a ∈ insertByDesc key x l ↔ a = x ∨ a ∈ l := by
  rw [(perm_insertByDesc key x l).mem_iff, List.mem_cons]

/-- Membership is unchanged by the descending sort. -/
theorem mem_sortByDesc {α : Type} {key : α → Int} {a : α} {l : List α} :
    a ∈ sortByDesc key l ↔ a ∈ l :=
  (perm_sortByDesc key l).mem_iff

/-- Insertion keeps the keys pairwise descending. -/
theorem pairwise_insertByDesc {α : Type} (key : α → Int) (x : α) (l : List α)
    (h : l.Pairwise (fun a b => key b ≤ key a)) :
    (insertByDesc key x l).Pairwise (fun a b => key b ≤ key a) := by
  induction l with
  | nil => simp [insertByDesc]
  | cons y ys ih =>
    rw [List.pairwise_cons] at h
    obtain ⟨hy, hys⟩ := h
    unfold insertByDesc
    by_cases hxy : key y ≤ key x
    · rw [if_pos hxy]
      refine List.Pairwise.cons ?_ (List.Pairwise.cons hy hys)
      intro z hz
      rcases List.mem_cons.mp hz with rfl | hz'
      · exact hxy
      · exact le_trans (hy z hz') hxy
    · rw [if_neg hxy]
      refine List.Pairwise.cons ?_ (ih hys)
      intro z hz
      rcases mem_insertByDesc.mp hz with rfl | hz'
      · exact le_of_not_le hxy
      · exact hy z hz'

/-- The descending sort yields pairwise descending keys. -/
theorem pairwise_sortByDesc {α : Type} (key : α → Int) (l : List α) :
    (sortByDesc key l).Pairwise (fun a b => key b ≤ key a) := by
  induction l with
  | nil => exact List.Pairwise.nil
  | cons x xs ih =>
    unfold sortByDesc
    exact pairwise_insertByDesc key x _ ih

/-- A body that passes validateLead carries, when set, a 24-hex salesAgent. -/
theorem validateLead_salesAgent {b : LeadBody} {a : String}
    (hval : validateLead b = true) (ha : b.salesAgent = some a) :
    isMongoId a = true := by
  unfold validateLead at hval
  rw [ha] at hval
  simp only [Bool.and_eq_true] at hval
  tauto

/-- A 24-hex string is a valid ObjectId. -/
theorem mongoId_valid {s : String} (h : isMongoId s = true) :
    objectIdIsValid s = true := by
  simp [objectIdIsValid, h]

/-- A list splits by a predicate into the kept and the dropped part. -/
theorem length_filter_split {α : Type} (p : α → Bool) (l : List α) :
    l.length = (l.filter p).length + (l.filter (fun a => !p a)).length := by
  induction l with
  | nil => rfl
  | cons x xs ih =>
    by_cases h : p x = true
    · simp only [List.filter_cons, h, Bool.not_true, List.length_cons, if_pos, if_neg,
        Bool.false_eq_true, ite_true, ite_false]
      omega
    · simp only [List.filter_cons, Bool.not_eq_true] at h ⊢
      rw [h]
      simp only [Bool.not_false, Bool.false_eq_true, ite_false, ite_true, List.length_cons]
      omega

/-- After removing the only matching lead, no lead with that id remains. -/
theorem removeFirstById_no_match (leadId : String) (ls : List Lead)
    (huniq : (ls.filter (fun x => x.id == leadId)).length ≤ 1) :
    ∀ x ∈ removeFirstById leadId ls, (x.id == leadId) = false := by
  induction ls with
  | nil => intro x hx; cases hx
  | cons l ls ih =>
    intro x hx
    unfold removeFirstById at hx
    by_cases h : (l.id == leadId) = true
    · rw [if_pos h] at hx
      simp [List.filter_cons, h] at huniq
      simpa using huniq x hx
    · rw [if_neg h] at hx
      rcases List.mem_cons.mp hx with rfl | hx'
      · simpa using h
      · refine ih ?_ x hx'
        simpa [List.filter_cons, h] using huniq

/-- Claim C1: a POST /leads request passing field validation whose
salesAgent is a well-formed id matching no stored agent is answered 404,
and the lead is nonetheless persisted (the existence check runs after the
write, with no rollback). -/
theorem claim_C1 (freshId : String) (b : LeadBody) (a : String) (db : DB)
    (hval : validateLead b = true)
    (ha : b.salesAgent = some a)
    (hnone : db.agents.find? (fun ag => ag.id == a) = none) :
    (postLeads freshId b db).fst.status = 404 ∧
    (postLeads freshId b db).snd.leads = db.leads ++ [leadOfBody freshId b] := by
  have hvalid := mongoId_valid (validateLead_salesAgent hval ha)
  simp [postLeads, createNewLead, leadOfBody, hval, ha, hvalid, hnone]

/-- Claim C1 witness: a concrete validated request against an empty store. -/
theorem claim_C1_witness :
    (postLeads "111111111111111111111111"
      { name := "Jo", salesAgent := some "aaaaaaaaaaaaaaaaaaaaaaaa", status := "New",
        priority := none, timeToClose := none, closedAt := none }
      { leads := [], agents := [], comments := [] }).fst.status = 404 ∧
    (postLeads "111111111111111111111111"
      { name := "Jo", salesAgent := some "aaaaaaaaaaaaaaaaaaaaaaaa", status := "New",
        priority := none, timeToClose := none, closedAt := none }
      { leads := [], agents := [], comments := [] }).snd.leads
      = [] ++ [leadOfBody "111111111111111111111111"
          { name := "Jo", salesAgent := some "aaaaaaaaaaaaaaaaaaaaaaaa", status := "New",
            priority := none, timeToClose := none, closedAt := none }] :=
  claim_C1 _ _ "aaaaaaaaaaaaaaaaaaaaaaaa" _ (by decide) rfl rfl

/-- Claim C9: the 400 branch of POST /leads that rejects the saved lead's
salesAgent as a malformed ObjectId is dead: validation admits only an
absent or 24-hex salesAgent, and every 24-hex string is a valid ObjectId,
so no request ever draws that response. -/
theorem claim_C9 (freshId : String) (b : LeadBody) (db : DB) :
    (postLeads freshId b db).fst.body ≠ RespBody.invalidSalesAgent ∧
    (∀ a : String, validateLead b = true → b.salesAgent = some a →
      objectIdIsValid a = true) := by
  constructor
  · by_cases hval : validateLead b = true
    · cases ha : b.salesAgent with
      | none => simp [postLeads, createNewLead, leadOfBody, hval, ha]
      | some a =>
        have hvalid := mongoId_valid (validateLead_salesAgent hval ha)
        cases hfind : db.agents.find? (fun ag => ag.id == a) with
        | none => simp [postLeads, createNewLead, leadOfBody, hval, ha, hvalid, hfind]
        | some ag => simp [postLeads, createNewLead, leadOfBody, hval, ha, hvalid, hfind]
    · simp [postLeads, hval]
  · intro a hval ha
    exact mongoId_valid (validateLead_salesAgent hval ha)

/-- Claim C9 witness: a concrete validated salesAgent id is a valid
ObjectId. -/
theorem claim_C9_witness :
    objectIdIsValid "aaaaaaaaaaaaaaaaaaaaaaaa" = true :=
  (claim_C9 "x"
    { name := "Jo", salesAgent := some "aaaaaaaaaaaaaaaaaaaaaaaa", status := "New",
      priority := none, timeToClose := none, closedAt := none }
    { leads := [], agents := [], comments := [] }).2
    "aaaaaaaaaaaaaaaaaaaaaaaa" (by decide) rfl

/-- Claim C8: GET /report/pipeline answers 200 with the exact number of
stored leads; the Closed and non-Closed parts together account for the
whole collection, so the count is independent of status. -/
theorem claim_C8 (db : DB) :
    (getPipelineReport db).status = 200 ∧
    (getPipelineReport db).body = RespBody.pipelineCount db.leads.length ∧
    db.leads.length
      = (db.leads.filter (fun l => l.status == "Closed")).length
        + (db.leads.filter (fun l => !(l.status == "Closed"))).length :=
  ⟨rfl, rfl, length_filter_split _ _⟩

/-- The report filter unfolded: Closed status and a closedAt inside the
inclusive window. -/
theorem inLastWeekWindow_iff (now : Int) (l : Lead) :
    inLastWeekWindow now l = true ↔
      (l.status = "Closed" ∧
        ∃ t : Int, l.closedAt = some t ∧ now - 7 * msPerDay ≤ t ∧ t ≤ now) := by
  cases h : l.closedAt with
  | none => simp [inLastWeekWindow, h]
  | some t => simp [inLastWeekWindow, h, and_assoc]

/-- Claim C3: the last-week report holds exactly the Closed leads whose
closedAt lies in the inclusive window from now minus 7 days to now,
ordered by closedAt descending; a lead closed exactly 7 days ago is in
the window, one closed 8 days ago is not. -/
theorem claim_C3 (now : Int) (db : DB) :
    (∀ l : Lead, l ∈ fetchLastWeekReport now db ↔
      (l ∈ db.leads ∧ l.status = "Closed" ∧
        ∃ t : Int, l.closedAt = some t ∧ now - 7 * msPerDay ≤ t ∧ t ≤ now)) ∧
    ((fetchLastWeekReport now db).Pairwise (fun a b => closedKey b ≤ closedKey a)) ∧
    (∀ l : Lead, l.status = "Closed" → l.closedAt = some (now - 7 * msPerDay) →
      inLastWeekWindow now l = true) ∧
    (∀ l : Lead, l.closedAt = some (now - 8 * msPerDay) →
      inLastWeekWindow now l = false) := by
  refine ⟨?_, pairwise_sortByDesc _ _, ?_, ?_⟩
  · intro l
    rw [fetchLastWeekReport, mem_sortByDesc, List.mem_filter, inLastWeekWindow_iff]
  · intro l hs hc
    rw [inLastWeekWindow_iff]
    exact ⟨hs, now - 7 * msPerDay, hc, le_refl _, by simp only [msPerDay]; omega⟩
  · intro l hc
    rw [Bool.eq_false_iff]
    intro hw
    rw [inLastWeekWindow_iff] at hw
    obtain ⟨-, t, ht, h1, -⟩ := hw
    rw [hc] at ht
    have h2 := Option.some.inj ht
    simp only [msPerDay] at h1 h2
    omega

/-- Claim C3 witness: the two boundary instances at request time zero. -/
theorem claim_C3_witness :
    inLastWeekWindow 0
      { id := "l1", name := "Jo", salesAgent := none, status := "Closed",
        priority := none, timeToClose := none, closedAt := some (0 - 7 * msPerDay) } = true ∧
    inLastWeekWindow 0
      { id := "l2", name := "Jo", salesAgent := none, status := "Closed",
        priority := none, timeToClose := none, closedAt := some (0 - 8 * msPerDay) } = false :=
  ⟨(claim_C3 0 { leads := [], agents := [], comments := [] }).2.2.1 _ rfl rfl,
   (claim_C3 0 { leads := [], agents := [], comments := [] }).2.2.2 _ rfl⟩

/-- Claim C4: for a PUT /leads/:id whose body passes the lead validators, a
malformed id is answered 400, a well-formed id matching no lead is
answered 404, and a match is answered 200 with the updated document. -/
theorem claim_C4 (leadId : String) (b : LeadBody) (db : DB)
    (hval : validateLead b = true) :
    (objectIdIsValid leadId = false → (putLead leadId b db).fst.status = 400) ∧
    (objectIdIsValid leadId = true →
      db.leads.find? (fun l => l.id == leadId) = none →
      (putLead leadId b db).fst.status = 404) ∧
    (∀ old : Lead, objectIdIsValid leadId = true →
      db.leads.find? (fun l => l.id == leadId) = some old →
      (putLead leadId b db).fst =
        { status := 200, body := RespBody.leadUpdated (applyUpdate old b) }) := by
  refine ⟨?_, ?_, ?_⟩
  · intro hbad
    simp [putLead, hval, hbad]
  · intro hid hnone
    simp [putLead, updateLeadById, hval, hid, hnone]
  · intro old hid hfound
    simp [putLead, updateLeadById, hval, hid, hfound]

/-- Claim C4 witness: the three outcomes at concrete inputs. -/
theorem claim_C4_witness :
    (putLead "xyz"
      { name := "Jo", salesAgent := none, status := "New", priority := none,
        timeToClose := none, closedAt := none }
      { leads := [], agents := [], comments := [] }).fst.status = 400 ∧
    (putLead "aaaaaaaaaaaaaaaaaaaaaaaa"
      { name := "Jo", salesAgent := none, status := "New", priority := none,
        timeToClose := none, closedAt := none }
      { leads := [], agents := [], comments := [] }).fst.status = 404 ∧
    (putLead "aaaaaaaaaaaaaaaaaaaaaaaa"
      { name := "Jo", salesAgent := none, status := "New", priority := none,
        timeToClose := none, closedAt := none }
      { leads := [{ id := "aaaaaaaaaaaaaaaaaaaaaaaa", name := "Al", salesAgent := none,
                    status := "Closed", priority := none, timeToClose := none,
                    closedAt := none }],
        agents := [], comments := [] }).fst
      = { status := 200,
          body := RespBody.leadUpdated (applyUpdate
            { id := "aaaaaaaaaaaaaaaaaaaaaaaa", name := "Al", salesAgent := none,
              status := "Closed", priority := none, timeToClose := none, closedAt := none }
            { name := "Jo", salesAgent := none, status := "New", priority := none,
              timeToClose := none, closedAt := none }) } :=
  ⟨(claim_C4 "xyz" _ _ (by decide)).1 (by decide),
   (claim_C4 "aaaaaaaaaaaaaaaaaaaaaaaa" _ _ (by decide)).2.1 (by decide) rfl,
   (claim_C4 "aaaaaaaaaaaaaaaaaaaaaaaa" _ _ (by decide)).2.2 _ (by decide) rfl⟩

/-- Claim C6: deleting an existing lead twice: the first DELETE answers 200
with the removed document and leaves no lead with that id behind; the
second answers 404 and changes nothing. -/
theorem claim_C6 (leadId : String) (l : Lead) (db : DB)
    (hid : objectIdIsValid leadId = true)
    (hfind : db.leads.find? (fun x => x.id == leadId) = some l)
    (huniq : (db.leads.filter (fun x => x.id == leadId)).length ≤ 1) :
    (deleteLead leadId db).fst = { status := 200, body := RespBody.leadDeleted l } ∧
    (∀ x ∈ (deleteLead leadId db).snd.leads, (x.id == leadId) = false) ∧
    (deleteLead leadId (deleteLead leadId db).snd).fst.status = 404 ∧
    (deleteLead leadId (deleteLead leadId db).snd).snd = (deleteLead leadId db).snd := by
  have hstate : (deleteLead leadId db).snd
      = { db with leads := removeFirstById leadId db.leads } := by
    simp [deleteLead, deleteLeadById, hid, hfind]
  have hnomatch := removeFirstById_no_match leadId db.leads huniq
  have hfind2 : (removeFirstById leadId db.leads).find? (fun x => x.id == leadId) = none :=
    List.find?_eq_none.mpr (fun x hx => by simp [hnomatch x hx])
  refine ⟨?_, ?_, ?_, ?_⟩
  · simp [deleteLead, deleteLeadById, hid, hfind]
  · rw [hstate]
    exact fun x hx => hnomatch x hx
  · rw [hstate]
    simp [deleteLead, deleteLeadById, hid, hfind2]
  · rw [hstate]
    simp [deleteLead, deleteLeadById, hid, hfind2]

/-- Claim C6 witness: a store holding one lead, deleted twice. -/
theorem claim_C6_witness :
    (deleteLead "aaaaaaaaaaaaaaaaaaaaaaaa"
      { leads := [{ id := "aaaaaaaaaaaaaaaaaaaaaaaa", name := "Al", salesAgent := none,
                    status := "New", priority := none, timeToClose := none, closedAt := none }],
        agents := [], comments := [] }).fst
      = { status := 200,
          body := RespBody.leadDeleted
            { id := "aaaaaaaaaaaaaaaaaaaaaaaa", name := "Al", salesAgent := none,
              status := "New", priority := none, timeToClose := none, closedAt := none } } ∧
    (deleteLead "aaaaaaaaaaaaaaaaaaaaaaaa"
      (deleteLead "aaaaaaaaaaaaaaaaaaaaaaaa"
        { leads := [{ id := "aaaaaaaaaaaaaaaaaaaaaaaa", name := "Al", salesAgent := none,
                      status := "New", priority := none, timeToClose := none, closedAt := none }],
          agents := [], comments := [] }).snd).fst.status = 404 :=
  ⟨(claim_C6 "aaaaaaaaaaaaaaaaaaaaaaaa"
      { id := "aaaaaaaaaaaaaaaaaaaaaaaa", name := "Al", salesAgent := none,
        status := "New", priority := none, timeToClose := none, closedAt := none }
      { leads := [{ id := "aaaaaaaaaaaaaaaaaaaaaaaa", name := "Al", salesAgent := none,
                    status := "New", priority := none, timeToClose := none, closedAt := none }],
        agents := [], comments := [] } (by decide) rfl (by decide)).1,
   (claim_C6 "aaaaaaaaaaaaaaaaaaaaaaaa"
      { id := "aaaaaaaaaaaaaaaaaaaaaaaa", name := "Al", salesAgent := none,
        status := "New", priority := none, timeToClose := none, closedAt := none }
      { leads := [{ id := "aaaaaaaaaaaaaaaaaaaaaaaa", name := "Al", salesAgent := none,
                    status := "New", priority := none, timeToClose := none, closedAt := none }],
        agents := [], comments := [] } (by decide) rfl (by decide)).2.2.1⟩

/-- Claim C5 counterexample: a comment POST with a non-empty string text and
a malformed lead id — an id matching no stored lead — is answered 500, not
404: the handler has no id-format guard and the cast failure of the lookup
lands in the catch block. -/
theorem claim_C5_counterexample :
    (postComment "c1" 0 "bad" { commentText := some "hi", author := none }
      { leads := [], agents := [], comments := [] }).fst.status = 500 ∧
    ¬ (postComment "c1" 0 "bad" { commentText := some "hi", author := none }
      { leads := [], agents := [], comments := [] }).fst.status = 404 := by
  decide

/-- Claim C5 as amended: for a POST /leads/:id/comments with a non-empty
string commentText and a well-formed :id matching no stored lead, the
response is 404 and the store is unchanged — no comment is persisted. -/
theorem claim_C5 (freshId : String) (ts : Int) (leadId : String)
    (b : CommentBody) (ct : String) (db : DB)
    (hct : b.commentText = some ct) (hne : ct.isEmpty = false)
    (hid : objectIdIsValid leadId = true)
    (hnolead : db.leads.find? (fun l => l.id == leadId) = none) :
    (postComment freshId ts leadId b db).fst.status = 404 ∧
    (postComment freshId ts leadId b db).snd = db := by
  simp [postComment, hct, hne, findLeadById, hid, hnolead]

/-- Claim C5 witness: a well-formed id against an empty store. -/
theorem claim_C5_witness :
    (postComment "c1" 0 "aaaaaaaaaaaaaaaaaaaaaaaa"
      { commentText := some "hi", author := none }
      { leads := [], agents := [], comments := [] }).fst.status = 404 ∧
    (postComment "c1" 0 "aaaaaaaaaaaaaaaaaaaaaaaa"
      { commentText := some "hi", author := none }
      { leads := [], agents := [], comments := [] }).snd
      = { leads := [], agents := [], comments := [] } :=
  claim_C5 _ _ _ _ "hi" _ rfl (by decide) (by decide) rfl

/-- Claim C10: POST /leads/:id/comments runs no id-format check: with a
non-empty string commentText and a malformed lead id the lookup throws,
the response is 500 and nothing is persisted, while GET
/leads/:id/comments answers 400 on the same malformed id. -/
theorem claim_C10 (freshId : String) (ts : Int) (leadId : String)
    (ct : String) (author : Option String) (db : DB)
    (hne : ct.isEmpty = false)
    (hbad : objectIdIsValid leadId = false) :
    (postComment freshId ts leadId { commentText := some ct, author := author } db).fst.status = 500 ∧
    (postComment freshId ts leadId { commentText := some ct, author := author } db).snd = db ∧
    (getComments leadId db).status = 400 := by
  simp [postComment, hne, findLeadById, hbad, getComments]

/-- Claim C10 witness: the malformed id abc. -/
theorem claim_C10_witness :
    (postComment "c1" 0 "abc" { commentText := some "hi", author := none }
      { leads := [], agents := [], comments := [] }).fst.status = 500 ∧
    (postComment "c1" 0 "abc" { commentText := some "hi", author := none }
      { leads := [], agents := [], comments := [] }).snd
      = { leads := [], agents := [], comments := [] } ∧
    (getComments "abc" { leads := [], agents := [], comments := [] }).status = 400 :=
  claim_C10 _ _ _ "hi" none _ (by decide) (by decide)

/-- Claim C2 evaluation: with the leads collection empty GET /leads answers
400; with the agents collection empty GET /agents answers 500 — not the
404 the claim states, since the 404 branch reads the out-of-scope error
binding, throws a ReferenceError, and the catch sends 500; for an existing
lead with no comments GET /leads/:id/comments answers 200 with the empty
array. -/
theorem claim_C2 :
    (∀ db : DB, db.leads = [] → (getLeads db).status = 400) ∧
    (∀ db : DB, db.agents = [] → (getAgents db).status = 500) ∧
    (∀ (db : DB) (leadId : String) (l : Lead), objectIdIsValid leadId = true →
      db.leads.find? (fun x => x.id == leadId) = some l →
      db.comments.filter (fun c => c.lead == leadId) = [] →
      getComments leadId db = { status := 200, body := RespBody.commentsFetched [] }) := by
  refine ⟨?_, ?_, ?_⟩
  · intro db h
    simp [getLeads, findAllLeads, h]
  · intro db h
    simp [getAgents, fetchSalesAgents, h]
  · intro db leadId l hid hfind hempty
    simp [getComments, hid, hfind, fetchAllComments, hempty, sortByDesc]

/-- Claim C2 witness: the three empty-collection responses at concrete
stores. -/
theorem claim_C2_witness :
    (getLeads { leads := [], agents := [], comments := [] }).status = 400 ∧
    (getAgents { leads := [], agents := [], comments := [] }).status = 500 ∧
    getComments "aaaaaaaaaaaaaaaaaaaaaaaa"
      { leads := [{ id := "aaaaaaaaaaaaaaaaaaaaaaaa", name := "Jo", salesAgent := none,
                    status := "New", priority := none, timeToClose := none, closedAt := none }],
        agents := [], comments := [] }
      = { status := 200, body := RespBody.commentsFetched [] } :=
  ⟨claim_C2.1 _ rfl, claim_C2.2.1 _ rfl, claim_C2.2.2 _ _ _ (by decide) rfl rfl⟩

/-- Populate keeps the comment's timestamp. -/
theorem commentView_createdAt (db : DB) (c : Comment) :
    (commentView db c).createdAt = c.createdAt := by
  unfold commentView
  cases db.agents.find? (fun a => a.id == c.author) <;> rfl

/-- Claim C7 counterexample: a lead with two comments sharing a createdAt —
the fetched list is not strictly ordered by createdAt descending, since
equal timestamps admit no strict decrease. -/
theorem claim_C7_counterexample :
    ¬ (fetchAllComments "aaaaaaaaaaaaaaaaaaaaaaaa"
        { leads := [{ id := "aaaaaaaaaaaaaaaaaaaaaaaa", name := "Jo", salesAgent := none,
                      status := "New", priority := none, timeToClose := none, closedAt := none }],
          agents := [],
          comments := [{ id := "c1", lead := "aaaaaaaaaaaaaaaaaaaaaaaa", author := "x",
                         commentText := "first", createdAt := 5 },
                       { id := "c2", lead := "aaaaaaaaaaaaaaaaaaaaaaaa", author := "x",
                         commentText := "second", createdAt := 5 }] }).Pairwise
      (fun a b => b.createdAt < a.createdAt) := by
  decide

/-- Claim C7 as amended: GET /leads/:id/comments returns exactly the lead's
comments with the author's name and email resolved, ordered by createdAt
descending (non-increasing); the order is strictly descending whenever the
lead's comments carry pairwise distinct createdAt values. -/
theorem claim_C7 (leadId : String) (db : DB) :
    ((fetchAllComments leadId db).Perm
      ((db.comments.filter (fun c => c.lead == leadId)).map (commentView db))) ∧
    ((fetchAllComments leadId db).Pairwise (fun a b => b.createdAt ≤ a.createdAt)) ∧
    (((db.comments.filter (fun c => c.lead == leadId)).map (fun c => c.createdAt)).Nodup →
      (fetchAllComments leadId db).Pairwise (fun a b => b.createdAt < a.createdAt)) ∧
    (∀ v ∈ fetchAllComments leadId db,
      ∃ c ∈ db.comments, c.lead = leadId ∧ v = commentView db c) := by
  refine ⟨perm_sortByDesc _ _, pairwise_sortByDesc _ _, ?_, ?_⟩
  · intro hnodup
    have hperm : ((fetchAllComments leadId db).map (fun v => v.createdAt)).Perm
        (((db.comments.filter (fun c => c.lead == leadId)).map (commentView db)).map
          (fun v => v.createdAt)) :=
      (perm_sortByDesc _ _).map _
    have hkeys : ((fetchAllComments leadId db).map (fun v => v.createdAt)).Nodup := by
      refine hperm.nodup_iff.mpr ?_
      rw [List.map_map]
      have hcomp : ((fun v : CommentView => v.createdAt) ∘ commentView db)
          = fun c : Comment => c.createdAt := by
        funext c
        simp [Function.comp, commentView_createdAt]
      rw [hcomp]
      exact hnodup
    have hne : (fetchAllComments leadId db).Pairwise
        (fun a b => a.createdAt ≠ b.createdAt) := by
      rw [List.Nodup, List.pairwise_map] at hkeys
      exact hkeys
    have hle : (fetchAllComments leadId db).Pairwise
        (fun a b => b.createdAt ≤ a.createdAt) := pairwise_sortByDesc _ _
    exact (hle.and hne).imp (fun h => lt_of_le_of_ne h.1 h.2.symm)
  · intro v hv
    rw [fetchAllComments, mem_sortByDesc] at hv
    obtain ⟨c, hc, hvc⟩ := List.mem_map.mp hv
    obtain ⟨hcm, hcl⟩ := List.mem_filter.mp hc
    exact ⟨c, hcm, by simpa using hcl, hvc.symm⟩

/-- Claim C7 witness: two distinct timestamps come back strictly newest
first. -/
theorem claim_C7_witness :
    (fetchAllComments "aaaaaaaaaaaaaaaaaaaaaaaa"
      { leads := [{ id := "aaaaaaaaaaaaaaaaaaaaaaaa", name := "Jo", salesAgent := none,
                    status := "New", priority := none, timeToClose := none, closedAt := none }],
        agents := [],
        comments := [{ id := "c1", lead := "aaaaaaaaaaaaaaaaaaaaaaaa", author := "x",
                       commentText := "first", createdAt := 5 },
                     { id := "c2", lead := "aaaaaaaaaaaaaaaaaaaaaaaa", author := "x",
                       commentText := "second", createdAt := 9 }] }).Pairwise
      (fun a b => b.createdAt < a.createdAt) :=
  (claim_C7 "aaaaaaaaaaaaaaaaaaaaaaaa"
    { leads := [{ id := "aaaaaaaaaaaaaaaaaaaaaaaa", name := "Jo", salesAgent := none,
                  status := "New", priority := none, timeToClose := none, closedAt := none }],
      agents := [],
      comments := [{ id := "c1", lead := "aaaaaaaaaaaaaaaaaaaaaaaa", author := "x",
                     commentText := "first", createdAt := 5 },
                   { id := "c2", lead := "aaaaaaaaaaaaaaaaaaaaaaaa", author := "x",
                     commentText := "second", createdAt := 9 }] }).2.2.1 (by decide)
